import Mathlib

/-!
Shallow embedding of `src/bot.py` and `src/config.py` of the
telegram-bitso-bot repository, together with theorems settling the
specification claims.

Modelling conventions:
* Python floats are modelled as exact rationals (`ℚ`).
* `datetime` values are modelled as an opaque natural-number timestamp.
* The price history dictionary (`BitsoPriceClient.price_history`) is an
  insertion-ordered association list, matching Python `dict` semantics.
* An HTTP interaction of `requests.get` + `raise_for_status` + `json()` is
  modelled by the `HttpResponse` data type: a transport-level exception, or a
  status code together with the (already shape-checked) fields the code reads:
  the `success` flag (`none` models a missing/malformed key, which raises and
  is caught) and the `payload.last` field parsed as a number (`none` models a
  missing or unparsable field, which raises and is caught).
* Message delivery (`updater.bot.send_message`) is modelled by a function
  returning `none` on success or `some e` where `e` is the exception text
  `str(e)` used by the string-matching classification in the source.
-/

namespace BitsoBot

/-- PriceInfo dataclass from `bot.py` (lines 19-24): current price, optional
previous price, and the time of the last update. -/
structure PriceInfo where
  current_price : ℚ
  last_price : Option ℚ
  last_update : ℕ
  deriving DecidableEq, Repr

/-! Decimal rendering helpers, modelling Python `format` specs `:,.2f` and
`:+.2f` exactly on the rational model (round half to even, two decimals,
optional thousands grouping, optional forced plus sign). -/

/-- Character for a decimal digit. -/
def digCh (d : ℕ) : Char :=
  match d with
  | 0 => '0' | 1 => '1' | 2 => '2' | 3 => '3' | 4 => '4'
  | 5 => '5' | 6 => '6' | 7 => '7' | 8 => '8' | 9 => '9'
  | _ => '0'

/-- Fuel-driven most-significant-first decimal digit expansion. -/
def natCharsGo : ℕ → ℕ → List Char
  | 0, _ => []
  | fuel + 1, n => if n = 0 then [] else natCharsGo fuel (n / 10) ++ [digCh (n % 10)]

/-- Decimal digit characters of a natural number (at least one digit). -/
def natChars (n : ℕ) : List Char :=
  if n = 0 then ['0'] else natCharsGo (n + 1) n

/-- Insert a comma before every group of three digits, walking a
least-significant-first digit list; `k` counts digits since the last comma. -/
def commasRev : List Char → ℕ → List Char
  | [], _ => []
  | c :: rest, k =>
    if k = 3 then ',' :: c :: commasRev rest 1
    else c :: commasRev rest (k + 1)

/-- Thousands grouping of a most-significant-first digit list. -/
def groupDigits (ds : List Char) : List Char :=
  (commasRev ds.reverse 0).reverse

/-- Two-digit zero-padded rendering of a number below 100. -/
def twoDigitsN (n : ℕ) : List Char :=
  [digCh (n / 10), digCh (n % 10)]

/-- Round a rational to the nearest integer, ties to even (the rounding used
by Python float formatting). -/
def roundHalfEvenZ (q : ℚ) : ℤ :=
  let f := ⌊q⌋
  if q - f < 1/2 then f
  else if (1 : ℚ)/2 < q - f then f + 1
  else if f % 2 = 0 then f else f + 1

/-- Characters of the fixed-two-decimals rendering of `q`, with optional
thousands grouping and optional forced plus sign. -/
def fixed2Chars (q : ℚ) (grouped forcePlus : Bool) : List Char :=
  let cents := roundHalfEvenZ (q * 100)
  let signChars : List Char := if cents < 0 then ['-'] else if forcePlus then ['+'] else []
  let n := cents.natAbs
  let intDigits := natChars (n / 100)
  let intPart := if grouped then groupDigits intDigits else intDigits
  signChars ++ intPart ++ ['.'] ++ twoDigitsN (n % 100)

/-- Python `f-string` spec `{q:,.2f}` (used for prices in the message). -/
def formatCurrency (q : ℚ) : String :=
  String.mk (fixed2Chars q true false)

/-- Python `f-string` spec `{q:+.2f}` when `forcePlus`, else `{q:.2f}`
(used for percent changes). -/
def formatPctStr (q : ℚ) (forcePlus : Bool) : String :=
  String.mk (fixed2Chars q false forcePlus)

/-- BitsoTelegramBot.get_price_change_emoji (`bot.py` lines 91-121): returns
the triple (change marker, change text, trend glyph). The markers encode the
spec's TrendClassification: "🆕" = NEW, "→" with text "(0.00%)" = FLAT,
"→" with a signed text = UP_SLIGHT/DOWN_SLIGHT, "↗️" = UP, "⤊" = UP_STRONG,
"↘️" = DOWN, "⤋" = DOWN_STRONG. Python's truthiness test
`not price_info.last_price` is true both for `None` and for `0.0`, which the
`Option` match plus the zero test reproduce. -/
def get_price_change_emoji (info : PriceInfo) : String × String × String :=
  match info.last_price with
  | none => ("🆕", "", "")
  | some lastP =>
    if lastP = 0 then ("🆕", "", "")
    else
      let change := (info.current_price - lastP) / lastP * 100
      if |change| < 1/100 then ("→", "(0.00%)", "")
      else
        let trendEmoji := if change > 0 then "📈" else "📉"
        if |change| < 1/10 then ("→", "(" ++ formatPctStr change true ++ "%)", trendEmoji)
        else if change > 0 then
          if change > 5 then ("⤊", "(" ++ formatPctStr change true ++ "%)", trendEmoji)
          else ("↗️", "(" ++ formatPctStr change true ++ "%)", trendEmoji)
        else
          if change < -5 then ("⤋", "(" ++ formatPctStr change false ++ "%)", trendEmoji)
          else ("↘️", "(" ++ formatPctStr change false ++ "%)", trendEmoji)

/-! Configuration (`config.py`). The Bitso section is hard-coded in
`load_config`; only the token, interval and debug flag come from the
environment. -/

/-- Trading pairs configured in `config.py` line 57, in their fixed order. -/
def trading_pairs : List String :=
  ["btc_mxn", "eth_mxn", "xrp_mxn", "sol_mxn", "usdt_mxn"]

/-- Flattened model of the `Config`/`BotConfig`/`BitsoConfig` dataclasses. -/
structure Config where
  token : String
  api_base_url : String
  tradingPairs : List String
  update_interval : ℤ
  debug : Bool
  deriving DecidableEq, Repr

/-- Python `int(s)` on a string: optional surrounding spaces, optional sign,
then at least one decimal digit; `none` models the `ValueError` raise. -/
def pythonInt (s : String) : Option ℤ :=
  let cs := s.data.dropWhile (· = ' ')
  let cs := (cs.reverse.dropWhile (· = ' ')).reverse
  let (neg, ds) :=
    match cs with
    | '-' :: rest => (true, rest)
    | '+' :: rest => (false, rest)
    | rest => (false, rest)
  if ds = [] ∨ ¬ ds.all (·.isDigit) then none
  else
    let n := ds.foldl (fun acc c => 10 * acc + (c.toNat - '0'.toNat)) 0
    some (if neg then -(n : ℤ) else (n : ℤ))

/-- load_config (`config.py` lines 36-66) over an abstract environment
`env : name ↦ value`. `none` models the `ValueError` raised for a missing
token and the `ValueError` of `int()` on a malformed UPDATE_INTERVAL; note
that `if not token` also rejects an empty-string token. -/
def load_config (env : String → Option String) : Option Config :=
  match env "TELEGRAM_TOKEN" with
  | none => none
  | some token =>
    if token = "" then none
    else
      match pythonInt ((env "UPDATE_INTERVAL").getD "1") with
      | none => none
      | some interval =>
        some ⟨token, "https://api.bitso.com/v3", trading_pairs, interval,
              ((env "DEBUG").getD "False").toLower = "true"⟩

/-! BitsoPriceClient (`bot.py` lines 26-63). -/

/-- Outcome of the HTTP exchange in `get_price`, as far as the code observes
it: a transport-level exception from `requests.get`, or a response with a
status code, the truthiness of `data['success']` (`none` = key missing or
body not JSON, which raises), and the numeric value of
`data['payload']['last']` (`none` = missing or unparsable, which raises). -/
inductive HttpResponse where
  | exn : HttpResponse
  | ok (status : ℕ) (success : Option Bool) (lastField : Option ℚ) : HttpResponse
  deriving DecidableEq, Repr

/-- Price history: insertion-ordered association list modelling the dict
`price_history : Dict[str, PriceInfo]`. -/
abbrev Hist := List (String × PriceInfo)

/-- Dict lookup `price_history.get(book)`. -/
def histGet (hist : Hist) (book : String) : Option PriceInfo :=
  match hist with
  | [] => none
  | (k, v) :: rest => if k = book then some v else histGet rest book

/-- Dict assignment `price_history[book] = info` (update in place, append if
new, preserving insertion order like a Python dict). -/
def histSet (hist : Hist) (book : String) (info : PriceInfo) : Hist :=
  match hist with
  | [] => [(book, info)]
  | (k, v) :: rest =>
    if k = book then (book, info) :: rest else (k, v) :: histSet rest book info

/-- True when the response makes `get_price` fail: transport error, an HTTP
error status (`raise_for_status` raises for 400-599), a missing or falsy
`success` flag, or a missing/unparsable `payload.last`. -/
def respFails : HttpResponse → Bool
  | .exn => true
  | .ok status success lastField =>
    (400 ≤ status ∧ status < 600 : Bool) || success.isNone ||
      success == some false || lastField.isNone

/-- BitsoPriceClient.get_price (`bot.py` lines 33-63): state-passing model.
Returns the `Optional[PriceInfo]` result and the new history. Every failure
path is caught by the `except` clause (or is the explicit `return None`), so
the function is total and leaves the history untouched on failure. -/
def get_price (hist : Hist) (book : String) (resp : HttpResponse) (now : ℕ) :
    Option PriceInfo × Hist :=
  match resp with
  | .exn => (none, hist)
  | .ok status success lastField =>
    if 400 ≤ status ∧ status < 600 then (none, hist)
    else
      match success with
      | none => (none, hist)
      | some false => (none, hist)
      | some true =>
        match lastField with
        | none => (none, hist)
        | some current_price =>
          let lastInfo := histGet hist book
          let newInfo : PriceInfo :=
            ⟨current_price, lastInfo.map (·.current_price), now⟩
          (some newInfo, histSet hist book newInfo)

/-! BitsoTelegramBot message formatting (`bot.py` lines 123-162). -/

/-- Crypto symbol → emoji table (`bot.py` lines 125-136). -/
def crypto_emojis : List (String × String) :=
  [("BTC", "₿"), ("ETH", "⟠"), ("XRP", "✘"), ("MANA", "🌐"), ("ADA", "⟁"),
   ("SOL", "◎"), ("USDT", "₮"), ("DOT", "●"), ("MATIC", "⬡"), ("USDC", "₵")]

/-- `pair.split('_')[0].upper()`. -/
def cryptoOf (pair : String) : String :=
  String.mk ((pair.data.takeWhile (· ≠ '_')).map Char.toUpper)

/-- One line of the price report, for one pair and its fetch result
(the body of the `for pair in ...` loop, lines 140-159). -/
def formatLine (pair : String) (result : Option PriceInfo) : String :=
  let crypto := cryptoOf pair
  let emoji := ((crypto_emojis.lookup crypto).getD "🪙")
  match result with
  | some info =>
    let t := get_price_change_emoji info
    let changeEmoji := t.1
    let changeText := t.2.1
    let trendEmoji := t.2.2
    let trendDisplay := if trendEmoji ≠ "" then " " ++ trendEmoji else ""
    crypto ++ " " ++ emoji ++ ": $" ++ formatCurrency info.current_price ++
      " MXN " ++ changeEmoji ++ trendDisplay ++ changeText ++ "\n"
  | none => emoji ++ " " ++ crypto ++ ": No disponible ❌\n"

/-- Two-digit zero-padded string. -/
def two (n : ℕ) : String := String.mk (twoDigitsN n)

/-- Pure rendering of the report from the per-pair fetch results and the
generation time (`strftime` format `%H:%M:%S`): the body of
`format_price_message` once the network results are fixed. -/
def renderPriceMessage (results : List (String × Option PriceInfo))
    (h m s : ℕ) : String :=
  "💰 Precios actuales en Bitso:\n\n" ++
    (results.map (fun r => formatLine r.1 r.2)).foldl (· ++ ·) "" ++
    "\nÚltima actualización: " ++ two h ++ ":" ++ two m ++ ":" ++ two s

/-- Fetch loop of `format_price_message`: one `get_price` call per configured
pair, threading the history; also returns the list of books actually
fetched, in order. -/
def fetchAll (pairs : List String) (hist : Hist) (resps : String → HttpResponse)
    (now : ℕ) : List (String × Option PriceInfo) × Hist × List String :=
  match pairs with
  | [] => ([], hist, [])
  | p :: rest =>
    let r := get_price hist p (resps p) now
    let t := fetchAll rest r.2 resps now
    ((p, r.1) :: t.1, t.2.1, p :: t.2.2)

/-- BitsoTelegramBot.format_price_message (`bot.py` lines 123-162): fetches
every configured pair and renders the report; returns the message, the new
history and the fetched books. -/
def format_price_message (hist : Hist) (resps : String → HttpResponse)
    (now h m s : ℕ) : String × Hist × List String :=
  let t := fetchAll trading_pairs hist resps now
  (renderPriceMessage t.1 h m s, t.2.1, t.2.2)

/-! Subscription commands (`bot.py` lines 173-196). The registry
`chats_activos : Set[int]` is modelled as a duplicate-free list of chat ids. -/

/-- cmd_activar (`bot.py` lines 173-185): returns the new registry and the
reply text. -/
def cmd_activar (chats : List ℤ) (chat_id : ℤ) (interval : ℤ) :
    List ℤ × String :=
  if chat_id ∈ chats then
    (chats, "⚠️ Las actualizaciones automáticas ya están activadas.")
  else
    (chats ++ [chat_id],
     "✅ Actualizaciones automáticas activadas.\nRecibirás precios cada " ++
       toString interval ++ " minutos.")

/-- cmd_desactivar (`bot.py` lines 187-196): returns the new registry and the
reply text. -/
def cmd_desactivar (chats : List ℤ) (chat_id : ℤ) : List ℤ × String :=
  if chat_id ∉ chats then
    (chats, "⚠️ Las actualizaciones automáticas ya están desactivadas.")
  else
    (chats.erase chat_id, "❌ Actualizaciones automáticas desactivadas.")

/-! Broadcast tick (`bot.py` lines 198-213). -/

/-- Does `pat` occur as a prefix of `text` (character lists)? -/
def startsWithL : List Char → List Char → Bool
  | [], _ => true
  | _ :: _, [] => false
  | a :: as, b :: bs => a = b && startsWithL as bs

/-- Does `pat` occur contiguously anywhere in `text`? Models Python's
`pat in text` on strings. -/
def hasSubL (pat : List Char) : List Char → Bool
  | [] => startsWithL pat []
  | c :: rest => startsWithL pat (c :: rest) || hasSubL pat rest

/-- String-matching classification of a delivery exception (`bot.py` line
212): permanent when `str(e)` mentions a blocked bot or a missing chat. -/
def esErrorPermanente (e : String) : Bool :=
  hasSubL "bot was blocked by the user".data e.data ||
    hasSubL "chat not found".data e.data

/-- Fan-out loop of `enviar_actualizacion` (lines 205-213): iterates the
snapshot `list(self.chats_activos)` while mutating the live set `activos`;
`deliver c = none` is a successful send, `some e` an exception with text `e`.
Returns the chats attempted (in order) and the final registry. -/
def fanOut (deliver : ℤ → Option String) :
    List ℤ → List ℤ → List ℤ × List ℤ
  | [], activos => ([], activos)
  | c :: rest, activos =>
    let activos' :=
      match deliver c with
      | none => activos
      | some e => if esErrorPermanente e then activos.erase c else activos
    let t := fanOut deliver rest activos'
    (c :: t.1, t.2)

/-- Result of one scheduler tick. -/
structure TickResult where
  fetched : List String
  attempted : List ℤ
  activos : List ℤ
  history : Hist
  message : Option String
  deriving Repr

/-- BitsoTelegramBot.enviar_actualizacion (`bot.py` lines 198-213): if the
registry is empty, return immediately (no fetch, no send); otherwise build
the report (fetching every pair) and attempt delivery to every chat in a
snapshot of the registry, discarding a chat exactly when its delivery raises
an exception classified as permanent. -/
def enviar_actualizacion (chats : List ℤ) (hist : Hist)
    (resps : String → HttpResponse) (deliver : ℤ → Option String)
    (now h m s : ℕ) : TickResult :=
  if chats.isEmpty then ⟨[], [], chats, hist, none⟩
  else
    let f := format_price_message hist resps now h m s
    let fan := fanOut deliver chats chats
    ⟨f.2.2, fan.1, fan.2, f.2.1, some f.1⟩

/-- True when delivering to `c` raises an exception classified permanent by
`esErrorPermanente` (the only situation in which the tick unsubscribes `c`). -/
def deliveryPermFail (deliver : ℤ → Option String) (c : ℤ) : Bool :=
  match deliver c with
  | none => false
  | some e => esErrorPermanente e

/-- Environment exercising the interval lower bound: token present,
UPDATE_INTERVAL set to "0". -/
def badEnv : String → Option String := fun k =>
  if k = "TELEGRAM_TOKEN" then some "token"
  else if k = "UPDATE_INTERVAL" then some "0" else none

/-- Environment with only the token set (UPDATE_INTERVAL unset). -/
def goodEnv : String → Option String := fun k =>
  if k = "TELEGRAM_TOKEN" then some "token" else none

/-- Configuration produced by `load_config badEnv` (interval 0). -/
def badCfg : Config :=
  ⟨"token", "https://api.bitso.com/v3", trading_pairs, 0,
   (((badEnv "DEBUG").getD "False").toLower = "true" : Bool)⟩

/-- Configuration produced by `load_config goodEnv` (default interval 1). -/
def goodCfg : Config :=
  ⟨"token", "https://api.bitso.com/v3", trading_pairs, 1,
   (((goodEnv "DEBUG").getD "False").toLower = "true" : Bool)⟩

/-- Delivery function where chat 2 raises a permanent rejection and every
other chat succeeds. -/
def tickDeliver : ℤ → Option String := fun c =>
  if c = 2 then some "Forbidden: bot was blocked by the user" else none

/-- Quote service that always fails at transport level. -/
def tickResps : String → HttpResponse := fun _ => .exn

/-! Helper lemmas. -/

theorem histGet_histSet (hist : Hist) (book : String) (info : PriceInfo) :
    histGet (histSet hist book info) book = some info := by
  induction hist with
  | nil => simp [histSet, histGet]
  | cons kv rest ih =>
    by_cases h : kv.1 = book
    · simp [histSet, histGet, h]
    · simp [histSet, histGet, h, ih]

theorem digCh_ne_pct (d : ℕ) : digCh d ≠ '%' := by
  unfold digCh
  split <;> decide

theorem natCharsGo_ne_pct (fuel : ℕ) :
    ∀ n c, c ∈ natCharsGo fuel n → c ≠ '%' := by
  induction fuel with
  | zero => intro n c hc; simp [natCharsGo] at hc
  | succ fuel ih =>
    intro n c hc
    rw [natCharsGo] at hc
    by_cases h : n = 0
    · simp [h] at hc
    · rw [if_neg h, List.mem_append] at hc
      rcases hc with hc | hc
      · exact ih _ _ hc
      · simp at hc
        rw [hc]
        exact digCh_ne_pct _

theorem natChars_ne_pct (n : ℕ) : ∀ c ∈ natChars n, c ≠ '%' := by
  intro c hc
  unfold natChars at hc
  by_cases h : n = 0
  · simp [h] at hc
    rw [hc]; decide
  · rw [if_neg h] at hc
    exact natCharsGo_ne_pct _ _ _ hc

theorem commasRev_ne_pct (l : List Char) :
    ∀ k c, c ∈ commasRev l k → c ∈ l ∨ c = ',' := by
  induction l with
  | nil => intro k c hc; simp [commasRev] at hc
  | cons a rest ih =>
    intro k c hc
    rw [commasRev] at hc
    by_cases h : k = 3
    · rw [if_pos h] at hc
      simp only [List.mem_cons] at hc ⊢
      rcases hc with hc | hc | hc
      · exact Or.inr hc
      · exact Or.inl (Or.inl hc)
      · rcases ih 1 c hc with h' | h'
        · exact Or.inl (Or.inr h')
        · exact Or.inr h'
    · rw [if_neg h] at hc
      simp only [List.mem_cons] at hc ⊢
      rcases hc with hc | hc
      · exact Or.inl (Or.inl hc)
      · rcases ih (k + 1) c hc with h' | h'
        · exact Or.inl (Or.inr h')
        · exact Or.inr h'

theorem fixed2Chars_ne_pct (q : ℚ) (g f : Bool) :
    ∀ c ∈ fixed2Chars q g f, c ≠ '%' := by
  intro c hc
  unfold fixed2Chars at hc
  simp only [List.mem_append] at hc
  rcases hc with ((hc | hc) | hc) | hc
  · split at hc <;> [skip; split at hc] <;> simp at hc <;> rw [hc] <;> decide
  · split at hc
    · unfold groupDigits at hc
      rw [List.mem_reverse] at hc
      rcases commasRev_ne_pct _ _ _ hc with h' | h'
      · rw [List.mem_reverse] at h'
        exact natChars_ne_pct _ _ h'
      · rw [h']; decide
    · exact natChars_ne_pct _ _ hc
  · simp at hc; rw [hc]; decide
  · unfold twoDigitsN at hc
    simp at hc
    rcases hc with hc | hc <;> rw [hc] <;> exact digCh_ne_pct _

theorem formatCurrency_no_pct (q : ℚ) : '%' ∉ (formatCurrency q).data := by
  intro hc
  exact fixed2Chars_ne_pct q true false '%' hc rfl

theorem fanOut_fst (deliver : ℤ → Option String) (snap : List ℤ) :
    ∀ activos, (fanOut deliver snap activos).1 = snap := by
  induction snap with
  | nil => intro activos; rfl
  | cons c rest ih => intro activos; simp [fanOut, ih]

theorem fanOut_mem (deliver : ℤ → Option String) (snap : List ℤ) :
    ∀ activos : List ℤ, activos.Nodup → ∀ x : ℤ,
      (x ∈ (fanOut deliver snap activos).2 ↔
        x ∈ activos ∧ ¬ (x ∈ snap ∧ deliveryPermFail deliver x = true)) := by
  induction snap with
  | nil => intro activos _ x; simp [fanOut]
  | cons c rest ih =>
    intro activos hnd x
    have hstep :
        (fanOut deliver (c :: rest) activos).2 =
          (fanOut deliver rest
            (if deliveryPermFail deliver c then activos.erase c else activos)).2 := by
      rw [fanOut]
      unfold deliveryPermFail
      rcases h : deliver c with _ | e <;> simp [h]
    rw [hstep]
    have hnd' : (if deliveryPermFail deliver c then activos.erase c else activos).Nodup := by
      split
      · exact hnd.erase c
      · exact hnd
    rw [ih _ hnd' x]
    by_cases hp : deliveryPermFail deliver c = true
    · rw [if_pos hp, hnd.mem_erase_iff]
      by_cases hxc : x = c
      · subst hxc
        simp [hp]
      · simp only [List.mem_cons]
        constructor
        · rintro ⟨⟨_, hx⟩, hrest⟩
          exact ⟨hx, by rintro ⟨hor, hpx⟩; rcases hor with h | h; exact hxc h; exact hrest ⟨h, hpx⟩⟩
        · rintro ⟨hx, hno⟩
          exact ⟨⟨hxc, hx⟩, fun ⟨h1, h2⟩ => hno ⟨Or.inr h1, h2⟩⟩
    · rw [if_neg hp]
      rw [Bool.not_eq_true] at hp
      by_cases hxc : x = c
      · subst hxc
        simp [hp]
      · simp only [List.mem_cons]
        constructor
        · rintro ⟨hx, hrest⟩
          exact ⟨hx, by rintro ⟨hor, hpx⟩; rcases hor with h | h; exact hxc h; exact hrest ⟨h, hpx⟩⟩
        · rintro ⟨hx, hno⟩
          exact ⟨hx, fun ⟨h1, h2⟩ => hno ⟨Or.inr h1, h2⟩⟩

/-! Claim theorems. -/

/-- C10: the percent-change computation never divides by zero — whenever
`last_price` is `None` or exactly `0`, `get_price_change_emoji` takes the NEW
branch (Python's `not price_info.last_price` is true for both), so the
division by `last_price` is only reached with a nonzero divisor. -/
theorem c10_no_division_when_last_absent_or_zero (info : PriceInfo)
    (h : info.last_price = none ∨ info.last_price = some 0) :
    get_price_change_emoji info = ("🆕", "", "") := by
  rcases h with h | h <;> simp [get_price_change_emoji, h]

/-- Witness for C10 at `last_price = some 0` (and the NEW output). -/
theorem c10_no_division_when_last_absent_or_zero_witness :
    get_price_change_emoji ⟨5, some 0, 0⟩ = ("🆕", "", "") :=
  c10_no_division_when_last_absent_or_zero ⟨5, some 0, 0⟩ (Or.inr rfl)

/-- C4: whenever `previous` is present (and positive, per the data-model
invariant `value > 0`) and the absolute percent change is strictly below
0.01, the snapshot is classified FLAT: the marker is "→", the change text is
exactly "(0.00%)" — the percentage reads "0.00%" with no sign, inside the
parentheses every change text carries — and no trend glyph is emitted. -/
theorem c4_flat_below_hundredth (info : PriceInfo) (lastP : ℚ)
    (hl : info.last_price = some lastP) (hpos : 0 < lastP)
    (hsmall : |(info.current_price - lastP) / lastP * 100| < 1/100) :
    get_price_change_emoji info = ("→", "(0.00%)", "") := by
  simp [get_price_change_emoji, hl, hpos.ne', hsmall]
  intro h
  rw [one_div] at hsmall
  exact absurd h (not_le.mpr hsmall)

/-- Witness for C4: previous 100, current 100 (zero change). -/
theorem c4_flat_below_hundredth_witness :
    get_price_change_emoji ⟨100, some 100, 0⟩ = ("→", "(0.00%)", "") :=
  c4_flat_below_hundredth ⟨100, some 100, 0⟩ 100 rfl (by norm_num)
    (by show |((100 : ℚ) - 100) / 100 * 100| < 1/100; norm_num)

/-- C3: the trend boundaries are strict comparisons toward the
lower-magnitude bucket: with a present positive previous price, a percent
change of exactly 0.1 yields the UP marker "↗️" (not the FLAT arrow "→"),
exactly 5 yields "↗️" (UP, not the UP_STRONG marker "⤊"), and exactly -5
yields "↘️" (DOWN, not the DOWN_STRONG marker "⤋"). -/
theorem c3_boundaries_half_open (info : PriceInfo) (lastP : ℚ)
    (hl : info.last_price = some lastP) (hpos : 0 < lastP) :
    ((info.current_price - lastP) / lastP * 100 = 1/10 →
      (get_price_change_emoji info).1 = "↗️" ∧ (get_price_change_emoji info).1 ≠ "→") ∧
    ((info.current_price - lastP) / lastP * 100 = 5 →
      (get_price_change_emoji info).1 = "↗️" ∧ (get_price_change_emoji info).1 ≠ "⤊") ∧
    ((info.current_price - lastP) / lastP * 100 = -5 →
      (get_price_change_emoji info).1 = "↘️" ∧ (get_price_change_emoji info).1 ≠ "⤋") := by
  refine ⟨fun hc => ?_, fun hc => ?_, fun hc => ?_⟩
  · have habs : |((1 : ℚ)/10)| = 1/10 := abs_of_pos (by norm_num)
    have key : (get_price_change_emoji info).1 = "↗️" := by
      norm_num [get_price_change_emoji, hl, hpos.ne', hc, habs]
    exact ⟨key, by rw [key]; decide⟩
  · have habs : |(5 : ℚ)| = 5 := abs_of_pos (by norm_num)
    have key : (get_price_change_emoji info).1 = "↗️" := by
      norm_num [get_price_change_emoji, hl, hpos.ne', hc, habs]
    exact ⟨key, by rw [key]; decide⟩
  · have habs : |(-5 : ℚ)| = 5 := by
      rw [abs_of_neg (by norm_num : (-5 : ℚ) < 0)]; norm_num
    have key : (get_price_change_emoji info).1 = "↘️" := by
      norm_num [get_price_change_emoji, hl, hpos.ne', hc, habs]
    exact ⟨key, by rw [key]; decide⟩

/-- Witness for C3: previous 1000 / current 1001 is exactly +0.1%, previous
100 / current 105 exactly +5%, previous 100 / current 95 exactly -5%. -/
theorem c3_boundaries_half_open_witness :
    (get_price_change_emoji ⟨1001, some 1000, 0⟩).1 = "↗️" ∧
    (get_price_change_emoji ⟨105, some 100, 0⟩).1 = "↗️" ∧
    (get_price_change_emoji ⟨95, some 100, 0⟩).1 = "↘️" :=
  ⟨((c3_boundaries_half_open ⟨1001, some 1000, 0⟩ 1000 rfl (by norm_num)).1
      (by show ((1001 : ℚ) - 1000) / 1000 * 100 = 1/10; norm_num)).1,
   ((c3_boundaries_half_open ⟨105, some 100, 0⟩ 100 rfl (by norm_num)).2.1
      (by show ((105 : ℚ) - 100) / 100 * 100 = 5; norm_num)).1,
   ((c3_boundaries_half_open ⟨95, some 100, 0⟩ 100 rfl (by norm_num)).2.2
      (by show ((95 : ℚ) - 100) / 100 * 100 = -5; norm_num)).1⟩

/-- C1: rendering the report is deterministic — two invocations given
identical per-instrument fetch results (price snapshots / unavailability
markers) and the same generation time produce character-for-character
identical strings; `renderPriceMessage` is a pure function of these inputs
and touches no other state. -/
theorem c1_render_deterministic (r₁ r₂ : List (String × Option PriceInfo))
    (h₁ h₂ m₁ m₂ s₁ s₂ : ℕ) (hr : r₁ = r₂) (hh : h₁ = h₂) (hm : m₁ = m₂)
    (hs : s₁ = s₂) :
    renderPriceMessage r₁ h₁ m₁ s₁ = renderPriceMessage r₂ h₂ m₂ s₂ := by
  subst hr hh hm hs
  rfl

/-- Witness for C1 at a concrete snapshot list and generation time. -/
theorem c1_render_deterministic_witness :
    renderPriceMessage [("btc_mxn", some ⟨100, none, 0⟩), ("eth_mxn", none)] 12 30 0 =
      renderPriceMessage [("btc_mxn", some ⟨100, none, 0⟩), ("eth_mxn", none)] 12 30 0 :=
  c1_render_deterministic _ _ _ _ _ _ _ _ rfl rfl rfl rfl

/-- C2: every failed fetch (transport error, HTTP error status, falsy or
missing success flag, or missing/unparsable payload) makes `get_price`
return `none` without mutating the stored history — the function is total,
so no exception escapes; and after the sequence
[success(100), failure, success(x)] the final snapshot has
`last_price = some 100`, not `none`. -/
theorem c2_failure_returns_none_preserves_history (hist : Hist) (book : String)
    (resp : HttpResponse) (now now₁ now₂ now₃ : ℕ) (x : ℚ)
    (hfail : respFails resp = true) :
    get_price hist book resp now = (none, hist) ∧
    (let s₁ := get_price hist book (.ok 200 (some true) (some 100)) now₁
     let s₂ := get_price s₁.2 book resp now₂
     let s₃ := get_price s₂.2 book (.ok 200 (some true) (some x)) now₃
     s₂ = (none, s₁.2) ∧ s₃.1 = some ⟨x, some 100, now₃⟩) := by
  have hnone : ∀ h : Hist, get_price h book resp now₂ = (none, h) ∧
      get_price h book resp now = (none, h) := by
    intro h
    cases resp with
    | exn => exact ⟨rfl, rfl⟩
    | ok status success lastField =>
      unfold respFails at hfail
      by_cases hs : 400 ≤ status ∧ status < 600
      · constructor <;> simp [get_price, hs]
      · rcases success with _ | b
        · constructor <;> simp [get_price, hs]
        · cases b with
          | false => constructor <;> simp [get_price, hs]
          | true =>
            rcases lastField with _ | p
            · constructor <;> simp [get_price, hs]
            · simp [hs] at hfail
  refine ⟨(hnone hist).2, ?_, ?_⟩
  · exact (hnone _).1
  · have h₁ : (get_price hist book (.ok 200 (some true) (some 100)) now₁).2 =
        histSet hist book ⟨100, (histGet hist book).map (·.current_price), now₁⟩ := by
      simp [get_price]
    rw [(hnone _).1, h₁]
    simp [get_price, histGet_histSet]

/-- Witness for C2: empty starting history, book "btc_mxn", transport error
as the failing fetch, current price 105 afterwards. -/
theorem c2_failure_returns_none_preserves_history_witness :
    get_price [] "btc_mxn" .exn 2 = (none, []) ∧
    (let s₁ := get_price [] "btc_mxn" (.ok 200 (some true) (some 100)) 1
     let s₂ := get_price s₁.2 "btc_mxn" .exn 2
     let s₃ := get_price s₂.2 "btc_mxn" (.ok 200 (some true) (some 105)) 3
     s₂ = (none, s₁.2) ∧ s₃.1 = some ⟨105, some 100, 3⟩) :=
  c2_failure_returns_none_preserves_history [] "btc_mxn" .exn 2 1 2 3 105 rfl

/-- C5: when the first-ever fetch of a configured instrument succeeds (no
entry in the history yet), the resulting snapshot has no previous price, it
is classified NEW ("🆕" with empty change text and no trend glyph), and the
rendered line for that instrument contains no '%' character at all. -/
theorem c5_first_fetch_new_no_percent (hist : Hist) (book : String)
    (now status : ℕ) (p : ℚ) (hfresh : histGet hist book = none)
    (hok : ¬ (400 ≤ status ∧ status < 600)) (hpair : book ∈ trading_pairs) :
    (get_price hist book (.ok status (some true) (some p)) now).1 =
      some ⟨p, none, now⟩ ∧
    get_price_change_emoji ⟨p, none, now⟩ = ("🆕", "", "") ∧
    '%' ∉ (formatLine book (some ⟨p, none, now⟩)).data := by
  refine ⟨by simp [get_price, hok, hfresh], rfl, ?_⟩
  have hline : ∀ crypto emoji : String,
      '%' ∉ crypto.data → '%' ∉ emoji.data →
      '%' ∉ (crypto ++ " " ++ emoji ++ ": $" ++ formatCurrency p ++
        " MXN " ++ "🆕" ++ "" ++ "" ++ "\n").data := by
    intro crypto emoji hc he hmem
    simp only [String.data_append, List.mem_append] at hmem
    rcases hmem with ((((((((h | h) | h) | h) | h) | h) | h) | h) | h) | h
    · exact hc h
    · exact absurd h (by decide)
    · exact he h
    · exact absurd h (by decide)
    · exact formatCurrency_no_pct p h
    · exact absurd h (by decide)
    · exact absurd h (by decide)
    · exact absurd h (by decide)
    · exact absurd h (by decide)
    · exact absurd h (by decide)
  simp only [trading_pairs, List.mem_cons, List.not_mem_nil, or_false] at hpair
  rcases hpair with rfl | rfl | rfl | rfl | rfl <;>
    · show '%' ∉ (_ ++ " " ++ _ ++ ": $" ++ formatCurrency p ++
        " MXN " ++ "🆕" ++ "" ++ "" ++ "\n").data
      exact hline _ _ (by decide) (by decide)

/-- Witness for C5: empty history, book "btc_mxn", status 200, price 100. -/
theorem c5_first_fetch_new_no_percent_witness :
    (get_price [] "btc_mxn" (.ok 200 (some true) (some 100)) 7).1 =
      some ⟨100, none, 7⟩ ∧
    get_price_change_emoji ⟨100, none, 7⟩ = ("🆕", "", "") ∧
    '%' ∉ (formatLine "btc_mxn" (some ⟨100, none, 7⟩)).data :=
  c5_first_fetch_new_no_percent [] "btc_mxn" 7 200 100 rfl (by decide) (by decide)

/-- C6: a scheduler tick with an empty subscription registry performs zero
quote fetches and returns before building any report: no book is fetched,
no delivery is attempted, no message is built, and the history is
unchanged. -/
theorem c6_empty_registry_tick_no_fetch (hist : Hist)
    (resps : String → HttpResponse) (deliver : ℤ → Option String)
    (now h m s : ℕ) :
    enviar_actualizacion [] hist resps deliver now h m s =
      ⟨[], [], [], hist, none⟩ :=
  rfl

/-- C7: in a tick, a destination whose delivery raises a permanently
classified exception is removed from the registry, while every destination
in the tick's snapshot is still attempted (one failure never aborts the
fan-out); and any destination whose delivery does not raise a permanently
classified exception — success or transient failure — stays subscribed. -/
theorem c7_permanent_rejection_pruned (chats : List ℤ) (hist : Hist)
    (resps : String → HttpResponse) (deliver : ℤ → Option String)
    (now h m s : ℕ) (D : ℤ) (e : String) (hnd : chats.Nodup) (hD : D ∈ chats)
    (hde : deliver D = some e) (hperm : esErrorPermanente e = true) :
    (enviar_actualizacion chats hist resps deliver now h m s).attempted = chats ∧
    D ∉ (enviar_actualizacion chats hist resps deliver now h m s).activos ∧
    ∀ c ∈ chats, deliveryPermFail deliver c = false →
      c ∈ (enviar_actualizacion chats hist resps deliver now h m s).activos := by
  have hne : chats.isEmpty = false := by
    cases chats with
    | nil => cases hD
    | cons a l => rfl
  have hout : enviar_actualizacion chats hist resps deliver now h m s =
      ⟨(format_price_message hist resps now h m s).2.2,
       (fanOut deliver chats chats).1, (fanOut deliver chats chats).2,
       (format_price_message hist resps now h m s).2.1,
       some (format_price_message hist resps now h m s).1⟩ := by
    rw [enviar_actualizacion, hne]
    rfl
  rw [hout]
  refine ⟨fanOut_fst deliver chats chats, ?_, ?_⟩
  · rw [fanOut_mem deliver chats chats hnd D]
    rintro ⟨-, hno⟩
    exact hno ⟨hD, by simp [deliveryPermFail, hde, hperm]⟩
  · intro c hc hcp
    rw [fanOut_mem deliver chats chats hnd c]
    exact ⟨hc, by rintro ⟨-, hp⟩; rw [hcp] at hp; cases hp⟩

/-- Witness for C7: registry [1, 2, 3], chat 2 blocked the bot (permanent),
chats 1 and 3 delivered; 2 is pruned, 1 stays, all three were attempted. -/
theorem c7_permanent_rejection_pruned_witness :
    (enviar_actualizacion [1, 2, 3] [] tickResps tickDeliver 0 0 0 0).attempted =
      [1, 2, 3] ∧
    (2 : ℤ) ∉ (enviar_actualizacion [1, 2, 3] [] tickResps tickDeliver 0 0 0 0).activos ∧
    (1 : ℤ) ∈ (enviar_actualizacion [1, 2, 3] [] tickResps tickDeliver 0 0 0 0).activos := by
  have h := c7_permanent_rejection_pruned [1, 2, 3] [] tickResps tickDeliver
    0 0 0 0 2 "Forbidden: bot was blocked by the user" (by decide) (by decide)
    (by decide) (by decide)
  exact ⟨h.1, h.2.1, h.2.2 1 (by decide) (by decide)⟩

/-- C8: subscription mutations are idempotent with distinct replies — for a
destination not yet subscribed, subscribe followed by subscribe grows the
registry by exactly one, the second call changes nothing and replies
"already activated"; and unsubscribe on a never-subscribed destination
replies "already deactivated" and leaves the registry unchanged. -/
theorem c8_subscription_idempotent (chats : List ℤ) (c interval : ℤ)
    (hc : c ∉ chats) :
    (cmd_activar (cmd_activar chats c interval).1 c interval).1.length =
      chats.length + 1 ∧
    (cmd_activar (cmd_activar chats c interval).1 c interval).1 =
      (cmd_activar chats c interval).1 ∧
    (cmd_activar (cmd_activar chats c interval).1 c interval).2 =
      "⚠️ Las actualizaciones automáticas ya están activadas." ∧
    cmd_desactivar chats c =
      (chats, "⚠️ Las actualizaciones automáticas ya están desactivadas.") := by
  have h₁ : (cmd_activar chats c interval).1 = chats ++ [c] := by
    simp [cmd_activar, hc]
  have hmem : c ∈ chats ++ [c] := by simp
  refine ⟨?_, ?_, ?_, ?_⟩
  · rw [h₁]; simp [cmd_activar, hmem]
  · rw [h₁]; simp [cmd_activar, hmem]
  · rw [h₁]; simp [cmd_activar, hmem]
  · simp [cmd_desactivar, hc]

/-- Witness for C8: empty registry, destination 42. -/
theorem c8_subscription_idempotent_witness :
    (cmd_activar (cmd_activar [] 42 1).1 42 1).1.length =
      List.length ([] : List ℤ) + 1 ∧
    (cmd_activar (cmd_activar [] 42 1).1 42 1).1 = (cmd_activar [] 42 1).1 ∧
    (cmd_activar (cmd_activar [] 42 1).1 42 1).2 =
      "⚠️ Las actualizaciones automáticas ya están activadas." ∧
    cmd_desactivar [] 42 =
      ([], "⚠️ Las actualizaciones automáticas ya están desactivadas.") :=
  c8_subscription_idempotent [] 42 1 (by decide)

/-- C9 counterexample: it is not true that every successfully loaded
configuration has a polling interval of at least 1 — `load_config` performs
no clamping or validation of UPDATE_INTERVAL, so the environment `badEnv`
(token present, UPDATE_INTERVAL="0") loads successfully with interval 0. -/
theorem c9_interval_minimum_counterexample :
    ¬ (∀ env cfg, load_config env = some cfg → 1 ≤ cfg.update_interval) := by
  intro hclaim
  have h := hclaim badEnv badCfg rfl
  norm_num [badCfg] at h

/-- C9 amended: the polling interval is the integer parsed from
UPDATE_INTERVAL (an integer number of whole minutes), with no minimum
enforced; only when the environment leaves UPDATE_INTERVAL unset is it the
default 1 — and in that case it is indeed at least 1. -/
theorem c9_interval_default_when_unset (env : String → Option String)
    (cfg : Config) (hunset : env "UPDATE_INTERVAL" = none)
    (hload : load_config env = some cfg) :
    cfg.update_interval = 1 ∧ 1 ≤ cfg.update_interval := by
  unfold load_config at hload
  rw [hunset] at hload
  have hone : pythonInt ((none : Option String).getD "1") = some 1 := by decide
  rw [hone] at hload
  split at hload
  · cases hload
  · split at hload
    · cases hload
    · cases hload
      exact ⟨rfl, le_refl 1⟩

/-- Witness for C9 amended: environment with only the token set. -/
theorem c9_interval_default_when_unset_witness :
    goodCfg.update_interval = 1 ∧ 1 ≤ goodCfg.update_interval :=
  c9_interval_default_when_unset goodEnv goodCfg rfl rfl

end BitsoBot
